import Mathlib

/-!
# SqlLocalDb.Interop: the export surface of `interop.cpp` / `interop.h`

The DLL exports thirteen `HRESULT APIENTRY` functions.  Each body is a `return` of one call
into the SQL Server LocalDB API declared by the header `sqlncli.h`.

Embedding.

* Machine words (`DWORD`, `ULONG`, `size_t`) are `Nat`, `HRESULT` is `Int`, and every pointer
  (`PCWSTR`, `LPWSTR`, `LPDWORD`, `void*`, the `P...` structure pointers) is the address it
  holds, a `Nat`.  A pointer cast such as `(PSID)pOwnerSID` keeps the address.  No arithmetic is
  done on any of them, so no wrap-around arises.
* The LocalDB API belongs to the SQL Server Native Client, not to this repository.  It is a
  parameter: a record `LocalDBApi σ` of thirteen arbitrary functions over an arbitrary machine state `σ` (process memory with the
  caller's buffers and count cells, the registry, the LocalDB instances ...), each returning the
  `HRESULT` and the state it leaves behind.
* The two things an export body takes from `sqlncli.h` besides entry points, the flag constant
  `LOCALDB_TRUNCATE_ERR_MESSAGE` and `sizeof(LocalDBInstanceInfo)`, are the parameter `Sqlncli`.
* An export is a state transformer `σ → HRESULT × σ` written statement by statement from its
  body.
* `recording api` is `api` instrumented to append each native call, with the argument values
  it received, to a log.  Running the same export against it shows which native calls one
  invocation makes.
* `interop_h`, `Export.decl` and `Export.body` are the declarations of the header and the call
  expression of each body, as data, for the statements about signatures.
-/

namespace SqlLocalDb

/-! ## Windows types -/

/-- 32-bit result code; negative values are failures. -/
abbrev HRESULT := Int
/-- 32-bit unsigned integer. -/
abbrev DWORD := Nat
/-- 32-bit unsigned integer. -/
abbrev ULONG := Nat
/-- Address held by a `void*` or by one of the typed structure pointers. -/
abbrev PVOID := Nat
/-- Address of a constant NUL-terminated wide string. -/
abbrev PCWSTR := Nat
/-- Address of a writable wide-character buffer. -/
abbrev LPWSTR := Nat
/-- Address of a `DWORD` cell. -/
abbrev LPDWORD := Nat

/-- The null pointer constant `NULL`. -/
def NULL : Nat := 0

/-! ## The native LocalDB API (parameter) -/

/-- The thirteen entry points of the LocalDB API that `interop.cpp` calls, as arbitrary
functions on the machine state `σ`.  The argument lists have the arity and order of the calls
in `interop.cpp`. -/
structure LocalDBApi (σ : Type) where
  LocalDBCreateInstance : PCWSTR → PCWSTR → DWORD → σ → HRESULT × σ
  LocalDBDeleteInstance : PCWSTR → DWORD → σ → HRESULT × σ
  LocalDBGetInstanceInfo : PCWSTR → PVOID → DWORD → σ → HRESULT × σ
  LocalDBGetInstances : PVOID → LPDWORD → σ → HRESULT × σ
  LocalDBFormatMessage : HRESULT → DWORD → DWORD → LPWSTR → LPDWORD → σ → HRESULT × σ
  LocalDBGetVersionInfo : PCWSTR → PVOID → DWORD → σ → HRESULT × σ
  LocalDBGetVersions : PVOID → LPDWORD → σ → HRESULT × σ
  LocalDBShareInstance : PVOID → PCWSTR → PCWSTR → DWORD → σ → HRESULT × σ
  LocalDBStartInstance : PCWSTR → DWORD → LPWSTR → LPDWORD → σ → HRESULT × σ
  LocalDBStartTracing : σ → HRESULT × σ
  LocalDBStopInstance : PCWSTR → DWORD → ULONG → σ → HRESULT × σ
  LocalDBStopTracing : σ → HRESULT × σ
  LocalDBUnshareInstance : PCWSTR → DWORD → σ → HRESULT × σ

/-- Compile-time values that `interop.cpp` takes from `sqlncli.h`, a header of the SQL Server
Native Client SDK: the flag constant passed by `GetLocalDbError` and the size of the structure
`LocalDBInstanceInfo` computed in `GetInstanceInfo`. -/
structure Sqlncli where
  LOCALDB_TRUNCATE_ERR_MESSAGE : DWORD
  sizeof_LocalDBInstanceInfo : Nat
deriving DecidableEq

/-! ## The exported functions (`interop.cpp`) -/

section Exports

variable {σ : Type}

/-- `CreateInstance`, interop.cpp lines 30-38. -/
def CreateInstance (api : LocalDBApi σ) (wszVersion : PCWSTR) (pInstanceName : PCWSTR) :
    σ → HRESULT × σ :=
  api.LocalDBCreateInstance
    wszVersion
    pInstanceName
    0

/-- `DeleteInstance`, interop.cpp lines 48-54. -/
def DeleteInstance (api : LocalDBApi σ) (pInstanceName : PCWSTR) : σ → HRESULT × σ :=
  api.LocalDBDeleteInstance
    pInstanceName
    0

/-- `GetInstanceInfo`, interop.cpp lines 67-82.  The local `s` is initialised, the `if` with
the empty block is executed, then the native call is returned. -/
def GetInstanceInfo (hdr : Sqlncli) (api : LocalDBApi σ) (wszInstanceName : PCWSTR)
    (pInstanceInfo : PVOID) (dwInstanceInfoSize : DWORD) : σ → HRESULT × σ := fun st =>
  let s : Nat := hdr.sizeof_LocalDBInstanceInfo
  let st₁ : σ := if s ≠ NULL then st else st
  api.LocalDBGetInstanceInfo
    wszInstanceName
    pInstanceInfo
    dwInstanceInfoSize
    st₁

/-- `GetInstanceNames`, interop.cpp lines 96-103. -/
def GetInstanceNames (api : LocalDBApi σ) (pInstanceNames : PVOID)
    (lpdwNumberOfInstances : LPDWORD) : σ → HRESULT × σ :=
  api.LocalDBGetInstances
    pInstanceNames
    lpdwNumberOfInstances

/-- `GetLocalDbError`, interop.cpp lines 118-130. -/
def GetLocalDbError (hdr : Sqlncli) (api : LocalDBApi σ) (hrLocalDB : HRESULT)
    (dwLanguageId : DWORD) (wszMessage : LPWSTR) (lpcchMessage : LPDWORD) : σ → HRESULT × σ :=
  api.LocalDBFormatMessage
    hrLocalDB
    hdr.LOCALDB_TRUNCATE_ERR_MESSAGE
    dwLanguageId
    wszMessage
    lpcchMessage

/-- `GetVersionInfo`, interop.cpp lines 144-153. -/
def GetVersionInfo (api : LocalDBApi σ) (wszVersionName : PCWSTR) (pVersionInfo : PVOID)
    (dwVersionInfoSize : DWORD) : σ → HRESULT × σ :=
  api.LocalDBGetVersionInfo
    wszVersionName
    pVersionInfo
    dwVersionInfoSize

/-- `GetVersions`, interop.cpp lines 165-172. -/
def GetVersions (api : LocalDBApi σ) (pVersion : PVOID) (lpdwNumberOfVersions : LPDWORD) :
    σ → HRESULT × σ :=
  api.LocalDBGetVersions
    pVersion
    lpdwNumberOfVersions

/-- `ShareInstance`, interop.cpp lines 185-195. -/
def ShareInstance (api : LocalDBApi σ) (pOwnerSID : PVOID) (pInstancePrivateName : PCWSTR)
    (pInstanceSharedName : PCWSTR) : σ → HRESULT × σ :=
  api.LocalDBShareInstance
    pOwnerSID
    pInstancePrivateName
    pInstanceSharedName
    0

/-- `StartInstance`, interop.cpp lines 209-219. -/
def StartInstance (api : LocalDBApi σ) (pInstanceName : PCWSTR) (wszSqlConnection : LPWSTR)
    (lpcchSqlConnection : LPDWORD) : σ → HRESULT × σ :=
  api.LocalDBStartInstance
    pInstanceName
    0
    wszSqlConnection
    lpcchSqlConnection

/-- `StartTracing`, interop.cpp lines 227-230. -/
def StartTracing (api : LocalDBApi σ) : σ → HRESULT × σ :=
  api.LocalDBStartTracing

/-- `StopInstance`, interop.cpp lines 243-251. -/
def StopInstance (api : LocalDBApi σ) (pInstanceName : PCWSTR) (ulTimeout : ULONG) :
    σ → HRESULT × σ :=
  api.LocalDBStopInstance
    pInstanceName
    0
    ulTimeout

/-- `StopTracing`, interop.cpp lines 259-262. -/
def StopTracing (api : LocalDBApi σ) : σ → HRESULT × σ :=
  api.LocalDBStopTracing

/-- `UnshareInstance`, interop.cpp lines 272-278. -/
def UnshareInstance (api : LocalDBApi σ) (pInstanceName : PCWSTR) : σ → HRESULT × σ :=
  api.LocalDBUnshareInstance
    pInstanceName
    0

end Exports

/-! ## Observing the native calls -/

/-- Names of the native entry points called from `interop.cpp`. -/
inductive NativeFn where
  | LocalDBCreateInstance
  | LocalDBDeleteInstance
  | LocalDBGetInstanceInfo
  | LocalDBGetInstances
  | LocalDBFormatMessage
  | LocalDBGetVersionInfo
  | LocalDBGetVersions
  | LocalDBShareInstance
  | LocalDBStartInstance
  | LocalDBStartTracing
  | LocalDBStopInstance
  | LocalDBStopTracing
  | LocalDBUnshareInstance
deriving DecidableEq

/-- One call into the native API: the entry point together with the argument values it
received, in the order of its argument list. -/
inductive NativeCall where
  | LocalDBCreateInstance (a₁ : PCWSTR) (a₂ : PCWSTR) (a₃ : DWORD)
  | LocalDBDeleteInstance (a₁ : PCWSTR) (a₂ : DWORD)
  | LocalDBGetInstanceInfo (a₁ : PCWSTR) (a₂ : PVOID) (a₃ : DWORD)
  | LocalDBGetInstances (a₁ : PVOID) (a₂ : LPDWORD)
  | LocalDBFormatMessage (a₁ : HRESULT) (a₂ : DWORD) (a₃ : DWORD) (a₄ : LPWSTR) (a₅ : LPDWORD)
  | LocalDBGetVersionInfo (a₁ : PCWSTR) (a₂ : PVOID) (a₃ : DWORD)
  | LocalDBGetVersions (a₁ : PVOID) (a₂ : LPDWORD)
  | LocalDBShareInstance (a₁ : PVOID) (a₂ : PCWSTR) (a₃ : PCWSTR) (a₄ : DWORD)
  | LocalDBStartInstance (a₁ : PCWSTR) (a₂ : DWORD) (a₃ : LPWSTR) (a₄ : LPDWORD)
  | LocalDBStartTracing
  | LocalDBStopInstance (a₁ : PCWSTR) (a₂ : DWORD) (a₃ : ULONG)
  | LocalDBStopTracing
  | LocalDBUnshareInstance (a₁ : PCWSTR) (a₂ : DWORD)
deriving DecidableEq

/-- The entry point of a native call. -/
def NativeCall.fn : NativeCall → NativeFn
  | .LocalDBCreateInstance _ _ _ => .LocalDBCreateInstance
  | .LocalDBDeleteInstance _ _ => .LocalDBDeleteInstance
  | .LocalDBGetInstanceInfo _ _ _ => .LocalDBGetInstanceInfo
  | .LocalDBGetInstances _ _ => .LocalDBGetInstances
  | .LocalDBFormatMessage _ _ _ _ _ => .LocalDBFormatMessage
  | .LocalDBGetVersionInfo _ _ _ => .LocalDBGetVersionInfo
  | .LocalDBGetVersions _ _ => .LocalDBGetVersions
  | .LocalDBShareInstance _ _ _ _ => .LocalDBShareInstance
  | .LocalDBStartInstance _ _ _ _ => .LocalDBStartInstance
  | .LocalDBStartTracing => .LocalDBStartTracing
  | .LocalDBStopInstance _ _ _ => .LocalDBStopInstance
  | .LocalDBStopTracing => .LocalDBStopTracing
  | .LocalDBUnshareInstance _ _ => .LocalDBUnshareInstance

/-- The argument values of a native call, in order, as integers. -/
def NativeCall.args : NativeCall → List Int
  | .LocalDBCreateInstance a₁ a₂ a₃ => [a₁, a₂, a₃]
  | .LocalDBDeleteInstance a₁ a₂ => [a₁, a₂]
  | .LocalDBGetInstanceInfo a₁ a₂ a₃ => [a₁, a₂, a₃]
  | .LocalDBGetInstances a₁ a₂ => [a₁, a₂]
  | .LocalDBFormatMessage a₁ a₂ a₃ a₄ a₅ => [a₁, a₂, a₃, a₄, a₅]
  | .LocalDBGetVersionInfo a₁ a₂ a₃ => [a₁, a₂, a₃]
  | .LocalDBGetVersions a₁ a₂ => [a₁, a₂]
  | .LocalDBShareInstance a₁ a₂ a₃ a₄ => [a₁, a₂, a₃, a₄]
  | .LocalDBStartInstance a₁ a₂ a₃ a₄ => [a₁, a₂, a₃, a₄]
  | .LocalDBStartTracing => []
  | .LocalDBStopInstance a₁ a₂ a₃ => [a₁, a₂, a₃]
  | .LocalDBStopTracing => []
  | .LocalDBUnshareInstance a₁ a₂ => [a₁, a₂]

/-- Making a native call directly: the entry point of `api` applied to the call's arguments. -/
def NativeCall.run {σ : Type} (api : LocalDBApi σ) : NativeCall → σ → HRESULT × σ
  | .LocalDBCreateInstance a₁ a₂ a₃ => api.LocalDBCreateInstance a₁ a₂ a₃
  | .LocalDBDeleteInstance a₁ a₂ => api.LocalDBDeleteInstance a₁ a₂
  | .LocalDBGetInstanceInfo a₁ a₂ a₃ => api.LocalDBGetInstanceInfo a₁ a₂ a₃
  | .LocalDBGetInstances a₁ a₂ => api.LocalDBGetInstances a₁ a₂
  | .LocalDBFormatMessage a₁ a₂ a₃ a₄ a₅ => api.LocalDBFormatMessage a₁ a₂ a₃ a₄ a₅
  | .LocalDBGetVersionInfo a₁ a₂ a₃ => api.LocalDBGetVersionInfo a₁ a₂ a₃
  | .LocalDBGetVersions a₁ a₂ => api.LocalDBGetVersions a₁ a₂
  | .LocalDBShareInstance a₁ a₂ a₃ a₄ => api.LocalDBShareInstance a₁ a₂ a₃ a₄
  | .LocalDBStartInstance a₁ a₂ a₃ a₄ => api.LocalDBStartInstance a₁ a₂ a₃ a₄
  | .LocalDBStartTracing => api.LocalDBStartTracing
  | .LocalDBStopInstance a₁ a₂ a₃ => api.LocalDBStopInstance a₁ a₂ a₃
  | .LocalDBStopTracing => api.LocalDBStopTracing
  | .LocalDBUnshareInstance a₁ a₂ => api.LocalDBUnshareInstance a₁ a₂

/-- A native function `k` instrumented to append the call `c` to the log before it runs on the
underlying state. -/
def logged {σ : Type} (c : NativeCall) (k : σ → HRESULT × σ) :
    List NativeCall × σ → HRESULT × (List NativeCall × σ) :=
  fun t => ((k t.2).1, (t.1 ++ [c], (k t.2).2))

/-- The API `api` with every entry point instrumented: the state is paired with the log of the
native calls made so far. -/
def recording {σ : Type} (api : LocalDBApi σ) : LocalDBApi (List NativeCall × σ) where
  LocalDBCreateInstance a₁ a₂ a₃ :=
    logged (.LocalDBCreateInstance a₁ a₂ a₃) (api.LocalDBCreateInstance a₁ a₂ a₃)
  LocalDBDeleteInstance a₁ a₂ :=
    logged (.LocalDBDeleteInstance a₁ a₂) (api.LocalDBDeleteInstance a₁ a₂)
  LocalDBGetInstanceInfo a₁ a₂ a₃ :=
    logged (.LocalDBGetInstanceInfo a₁ a₂ a₃) (api.LocalDBGetInstanceInfo a₁ a₂ a₃)
  LocalDBGetInstances a₁ a₂ :=
    logged (.LocalDBGetInstances a₁ a₂) (api.LocalDBGetInstances a₁ a₂)
  LocalDBFormatMessage a₁ a₂ a₃ a₄ a₅ :=
    logged (.LocalDBFormatMessage a₁ a₂ a₃ a₄ a₅) (api.LocalDBFormatMessage a₁ a₂ a₃ a₄ a₅)
  LocalDBGetVersionInfo a₁ a₂ a₃ :=
    logged (.LocalDBGetVersionInfo a₁ a₂ a₃) (api.LocalDBGetVersionInfo a₁ a₂ a₃)
  LocalDBGetVersions a₁ a₂ :=
    logged (.LocalDBGetVersions a₁ a₂) (api.LocalDBGetVersions a₁ a₂)
  LocalDBShareInstance a₁ a₂ a₃ a₄ :=
    logged (.LocalDBShareInstance a₁ a₂ a₃ a₄) (api.LocalDBShareInstance a₁ a₂ a₃ a₄)
  LocalDBStartInstance a₁ a₂ a₃ a₄ :=
    logged (.LocalDBStartInstance a₁ a₂ a₃ a₄) (api.LocalDBStartInstance a₁ a₂ a₃ a₄)
  LocalDBStartTracing :=
    logged .LocalDBStartTracing api.LocalDBStartTracing
  LocalDBStopInstance a₁ a₂ a₃ :=
    logged (.LocalDBStopInstance a₁ a₂ a₃) (api.LocalDBStopInstance a₁ a₂ a₃)
  LocalDBStopTracing :=
    logged .LocalDBStopTracing api.LocalDBStopTracing
  LocalDBUnshareInstance a₁ a₂ :=
    logged (.LocalDBUnshareInstance a₁ a₂) (api.LocalDBUnshareInstance a₁ a₂)

/-- An API on the trivial state whose every entry point returns `S_OK` (0); used to evaluate
the exports on concrete arguments. -/
def idleApi : LocalDBApi Unit where
  LocalDBCreateInstance _ _ _ := fun s => (0, s)
  LocalDBDeleteInstance _ _ := fun s => (0, s)
  LocalDBGetInstanceInfo _ _ _ := fun s => (0, s)
  LocalDBGetInstances _ _ := fun s => (0, s)
  LocalDBFormatMessage _ _ _ _ _ := fun s => (0, s)
  LocalDBGetVersionInfo _ _ _ := fun s => (0, s)
  LocalDBGetVersions _ _ := fun s => (0, s)
  LocalDBShareInstance _ _ _ _ := fun s => (0, s)
  LocalDBStartInstance _ _ _ _ := fun s => (0, s)
  LocalDBStartTracing := fun s => (0, s)
  LocalDBStopInstance _ _ _ := fun s => (0, s)
  LocalDBStopTracing := fun s => (0, s)
  LocalDBUnshareInstance _ _ := fun s => (0, s)

/-! ## Invocations of the exports -/

/-- The thirteen exported functions, in the order of `interop.h`. -/
inductive Export where
  | CreateInstance
  | DeleteInstance
  | GetInstanceInfo
  | GetInstanceNames
  | GetLocalDbError
  | GetVersionInfo
  | GetVersions
  | ShareInstance
  | StartInstance
  | StartTracing
  | StopInstance
  | StopTracing
  | UnshareInstance
deriving DecidableEq

/-- One invocation of an export by the managed caller: the export and the argument values, in
the order of its parameter list. -/
inductive ExportCall where
  | CreateInstance (wszVersion : PCWSTR) (pInstanceName : PCWSTR)
  | DeleteInstance (pInstanceName : PCWSTR)
  | GetInstanceInfo (wszInstanceName : PCWSTR) (pInstanceInfo : PVOID) (dwInstanceInfoSize : DWORD)
  | GetInstanceNames (pInstanceNames : PVOID) (lpdwNumberOfInstances : LPDWORD)
  | GetLocalDbError (hrLocalDB : HRESULT) (dwLanguageId : DWORD) (wszMessage : LPWSTR)
      (lpcchMessage : LPDWORD)
  | GetVersionInfo (wszVersionName : PCWSTR) (pVersionInfo : PVOID) (dwVersionInfoSize : DWORD)
  | GetVersions (pVersion : PVOID) (lpdwNumberOfVersions : LPDWORD)
  | ShareInstance (pOwnerSID : PVOID) (pInstancePrivateName : PCWSTR)
      (pInstanceSharedName : PCWSTR)
  | StartInstance (pInstanceName : PCWSTR) (wszSqlConnection : LPWSTR)
      (lpcchSqlConnection : LPDWORD)
  | StartTracing
  | StopInstance (pInstanceName : PCWSTR) (ulTimeout : ULONG)
  | StopTracing
  | UnshareInstance (pInstanceName : PCWSTR)
deriving DecidableEq

/-- The export that an invocation enters. -/
def ExportCall.fn : ExportCall → Export
  | .CreateInstance _ _ => .CreateInstance
  | .DeleteInstance _ => .DeleteInstance
  | .GetInstanceInfo _ _ _ => .GetInstanceInfo
  | .GetInstanceNames _ _ => .GetInstanceNames
  | .GetLocalDbError _ _ _ _ => .GetLocalDbError
  | .GetVersionInfo _ _ _ => .GetVersionInfo
  | .GetVersions _ _ => .GetVersions
  | .ShareInstance _ _ _ => .ShareInstance
  | .StartInstance _ _ _ => .StartInstance
  | .StartTracing => .StartTracing
  | .StopInstance _ _ => .StopInstance
  | .StopTracing => .StopTracing
  | .UnshareInstance _ => .UnshareInstance

/-- The argument values of an invocation, in the order of the parameter list, as integers. -/
def ExportCall.args : ExportCall → List Int
  | .CreateInstance a₁ a₂ => [a₁, a₂]
  | .DeleteInstance a₁ => [a₁]
  | .GetInstanceInfo a₁ a₂ a₃ => [a₁, a₂, a₃]
  | .GetInstanceNames a₁ a₂ => [a₁, a₂]
  | .GetLocalDbError a₁ a₂ a₃ a₄ => [a₁, a₂, a₃, a₄]
  | .GetVersionInfo a₁ a₂ a₃ => [a₁, a₂, a₃]
  | .GetVersions a₁ a₂ => [a₁, a₂]
  | .ShareInstance a₁ a₂ a₃ => [a₁, a₂, a₃]
  | .StartInstance a₁ a₂ a₃ => [a₁, a₂, a₃]
  | .StartTracing => []
  | .StopInstance a₁ a₂ => [a₁, a₂]
  | .StopTracing => []
  | .UnshareInstance a₁ => [a₁]

/-- Executing an invocation: the exported function applied to the arguments. -/
def ExportCall.invoke {σ : Type} (hdr : Sqlncli) (api : LocalDBApi σ) :
    ExportCall → σ → HRESULT × σ
  | .CreateInstance a₁ a₂ => SqlLocalDb.CreateInstance api a₁ a₂
  | .DeleteInstance a₁ => SqlLocalDb.DeleteInstance api a₁
  | .GetInstanceInfo a₁ a₂ a₃ => SqlLocalDb.GetInstanceInfo hdr api a₁ a₂ a₃
  | .GetInstanceNames a₁ a₂ => SqlLocalDb.GetInstanceNames api a₁ a₂
  | .GetLocalDbError a₁ a₂ a₃ a₄ => SqlLocalDb.GetLocalDbError hdr api a₁ a₂ a₃ a₄
  | .GetVersionInfo a₁ a₂ a₃ => SqlLocalDb.GetVersionInfo api a₁ a₂ a₃
  | .GetVersions a₁ a₂ => SqlLocalDb.GetVersions api a₁ a₂
  | .ShareInstance a₁ a₂ a₃ => SqlLocalDb.ShareInstance api a₁ a₂ a₃
  | .StartInstance a₁ a₂ a₃ => SqlLocalDb.StartInstance api a₁ a₂ a₃
  | .StartTracing => SqlLocalDb.StartTracing api
  | .StopInstance a₁ a₂ => SqlLocalDb.StopInstance api a₁ a₂
  | .StopTracing => SqlLocalDb.StopTracing api
  | .UnshareInstance a₁ => SqlLocalDb.UnshareInstance api a₁

/-- The native calls made while one invocation runs from state `s`: the log that the
instrumented API leaves when the invocation starts from the empty log. -/
def nativeCalls {σ : Type} (hdr : Sqlncli) (api : LocalDBApi σ) (c : ExportCall) (s : σ) :
    List NativeCall :=
  (c.invoke hdr (recording api) ([], s)).2.1

/-! ## The declarations of `interop.h` and the call expressions of `interop.cpp`, as data -/

/-- The C types that occur in the declarations and in the casts of `interop.cpp`. -/
inductive CType where
  | PCWSTR
  | voidPtr
  | DWORD
  | LPDWORD
  | HRESULT
  | LPWSTR
  | ULONG
  | PLocalDBInstanceInfo
  | PTLocalDBInstanceName
  | PLocalDBVersionInfo
  | PTLocalDBVersion
  | PSID
deriving DecidableEq

/-- One declared parameter: its type and its name. -/
structure Param where
  type : CType
  name : String
deriving DecidableEq

/-- One declaration of the form `HRESULT APIENTRY name(params);`. -/
structure Decl where
  name : String
  params : List Param
deriving DecidableEq

/-- The declaration of each export in `Trunk/src/SqlLocalDb.Interop/interop.h` (lines 19-69);
the definitions in `interop.cpp` repeat the same parameter lists. -/
def Export.decl : Export → Decl
  | .CreateInstance => ⟨"CreateInstance", [⟨.PCWSTR, "wszVersion"⟩, ⟨.PCWSTR, "pInstanceName"⟩]⟩
  | .DeleteInstance => ⟨"DeleteInstance", [⟨.PCWSTR, "pInstanceName"⟩]⟩
  | .GetInstanceInfo => ⟨"GetInstanceInfo",
      [⟨.PCWSTR, "wszInstanceName"⟩, ⟨.voidPtr, "pInstanceInfo"⟩, ⟨.DWORD, "dwInstanceInfoSize"⟩]⟩
  | .GetInstanceNames => ⟨"GetInstanceNames",
      [⟨.voidPtr, "pInstanceNames"⟩, ⟨.LPDWORD, "lpdwNumberOfInstances"⟩]⟩
  | .GetLocalDbError => ⟨"GetLocalDbError",
      [⟨.HRESULT, "hrLocalDB"⟩, ⟨.DWORD, "dwLanguageId"⟩, ⟨.LPWSTR, "wszMessage"⟩,
       ⟨.LPDWORD, "lpcchMessage"⟩]⟩
  | .GetVersionInfo => ⟨"GetVersionInfo",
      [⟨.PCWSTR, "wszVersionName"⟩, ⟨.voidPtr, "pVersionInfo"⟩, ⟨.DWORD, "dwVersionInfoSize"⟩]⟩
  | .GetVersions => ⟨"GetVersions",
      [⟨.voidPtr, "pVersion"⟩, ⟨.LPDWORD, "lpdwNumberOfVersions"⟩]⟩
  | .ShareInstance => ⟨"ShareInstance",
      [⟨.voidPtr, "pOwnerSID"⟩, ⟨.PCWSTR, "pInstancePrivateName"⟩,
       ⟨.PCWSTR, "pInstanceSharedName"⟩]⟩
  | .StartInstance => ⟨"StartInstance",
      [⟨.PCWSTR, "pInstanceName"⟩, ⟨.LPWSTR, "wszSqlConnection"⟩,
       ⟨.LPDWORD, "lpcchSqlConnection"⟩]⟩
  | .StartTracing => ⟨"StartTracing", []⟩
  | .StopInstance => ⟨"StopInstance", [⟨.PCWSTR, "pInstanceName"⟩, ⟨.ULONG, "ulTimeout"⟩]⟩
  | .StopTracing => ⟨"StopTracing", []⟩
  | .UnshareInstance => ⟨"UnshareInstance", [⟨.PCWSTR, "pInstanceName"⟩]⟩

/-- The exports in the order in which `interop.h` declares them. -/
def Export.all : List Export :=
  [.CreateInstance, .DeleteInstance, .GetInstanceInfo, .GetInstanceNames, .GetLocalDbError,
   .GetVersionInfo, .GetVersions, .ShareInstance, .StartInstance, .StartTracing, .StopInstance,
   .StopTracing, .UnshareInstance]

/-- The declarations of `Trunk/src/SqlLocalDb.Interop/interop.h`, lines 19-69, in order. -/
def Trunk.interop_h : List Decl :=
  Export.all.map Export.decl

/-- The declarations of `src/SqlLocalDb.Interop/interop.h`, lines 15-65, in order. -/
def interop_h : List Decl :=
  [ ⟨"CreateInstance", [⟨.PCWSTR, "wszVersion"⟩, ⟨.PCWSTR, "pInstanceName"⟩]⟩,
    ⟨"DeleteInstance", [⟨.PCWSTR, "pInstanceName"⟩]⟩,
    ⟨"GetInstanceInfo",
      [⟨.PCWSTR, "wszInstanceName"⟩, ⟨.voidPtr, "pInstanceInfo"⟩, ⟨.DWORD, "dwInstanceInfoSize"⟩]⟩,
    ⟨"GetInstanceNames", [⟨.voidPtr, "pInstanceNames"⟩, ⟨.LPDWORD, "lpdwNumberOfInstances"⟩]⟩,
    ⟨"GetLocalDbError",
      [⟨.HRESULT, "hrLocalDB"⟩, ⟨.DWORD, "dwLanguageId"⟩, ⟨.LPWSTR, "wszMessage"⟩,
       ⟨.LPDWORD, "lpcchMessage"⟩]⟩,
    ⟨"GetVersionInfo",
      [⟨.PCWSTR, "wszVersionName"⟩, ⟨.voidPtr, "pVersionInfo"⟩, ⟨.DWORD, "dwVersionInfoSize"⟩]⟩,
    ⟨"GetVersions", [⟨.voidPtr, "pVersion"⟩, ⟨.LPDWORD, "lpdwNumberOfVersions"⟩]⟩,
    ⟨"ShareInstance",
      [⟨.voidPtr, "pOwnerSID"⟩, ⟨.PCWSTR, "pInstancePrivateName"⟩,
       ⟨.PCWSTR, "pInstanceSharedName"⟩]⟩,
    ⟨"StartInstance",
      [⟨.PCWSTR, "pInstanceName"⟩, ⟨.LPWSTR, "wszSqlConnection"⟩,
       ⟨.LPDWORD, "lpcchSqlConnection"⟩]⟩,
    ⟨"StartTracing", []⟩,
    ⟨"StopInstance", [⟨.PCWSTR, "pInstanceName"⟩, ⟨.ULONG, "ulTimeout"⟩]⟩,
    ⟨"StopTracing", []⟩,
    ⟨"UnshareInstance", [⟨.PCWSTR, "pInstanceName"⟩]⟩ ]

/-- An argument expression at a call site of `interop.cpp`. -/
inductive ArgExpr where
  /-- A parameter of the enclosing export, written by name. -/
  | param (name : String)
  /-- A parameter under a C cast, as in `(PSID)pOwnerSID`. -/
  | cast (type : CType) (name : String)
  /-- The literal `0`. -/
  | zero
  /-- The constant `LOCALDB_TRUNCATE_ERR_MESSAGE` of `sqlncli.h`. -/
  | LOCALDB_TRUNCATE_ERR_MESSAGE
deriving DecidableEq

/-- The call expression returned by an export body: callee and argument expressions. -/
structure CallSite where
  callee : NativeFn
  args : List ArgExpr
deriving DecidableEq

/-- The call expression in the `return` statement of each export body in `interop.cpp`. -/
def Export.body : Export → CallSite
  | .CreateInstance => ⟨.LocalDBCreateInstance,
      [.param "wszVersion", .param "pInstanceName", .zero]⟩
  | .DeleteInstance => ⟨.LocalDBDeleteInstance, [.param "pInstanceName", .zero]⟩
  | .GetInstanceInfo => ⟨.LocalDBGetInstanceInfo,
      [.param "wszInstanceName", .cast .PLocalDBInstanceInfo "pInstanceInfo",
       .param "dwInstanceInfoSize"]⟩
  | .GetInstanceNames => ⟨.LocalDBGetInstances,
      [.cast .PTLocalDBInstanceName "pInstanceNames", .param "lpdwNumberOfInstances"]⟩
  | .GetLocalDbError => ⟨.LocalDBFormatMessage,
      [.param "hrLocalDB", .LOCALDB_TRUNCATE_ERR_MESSAGE, .param "dwLanguageId",
       .param "wszMessage", .param "lpcchMessage"]⟩
  | .GetVersionInfo => ⟨.LocalDBGetVersionInfo,
      [.param "wszVersionName", .cast .PLocalDBVersionInfo "pVersionInfo",
       .param "dwVersionInfoSize"]⟩
  | .GetVersions => ⟨.LocalDBGetVersions,
      [.cast .PTLocalDBVersion "pVersion", .param "lpdwNumberOfVersions"]⟩
  | .ShareInstance => ⟨.LocalDBShareInstance,
      [.cast .PSID "pOwnerSID", .param "pInstancePrivateName", .param "pInstanceSharedName",
       .zero]⟩
  | .StartInstance => ⟨.LocalDBStartInstance,
      [.param "pInstanceName", .zero, .param "wszSqlConnection", .param "lpcchSqlConnection"]⟩
  | .StartTracing => ⟨.LocalDBStartTracing, []⟩
  | .StopInstance => ⟨.LocalDBStopInstance, [.param "pInstanceName", .zero, .param "ulTimeout"]⟩
  | .StopTracing => ⟨.LocalDBStopTracing, []⟩
  | .UnshareInstance => ⟨.LocalDBUnshareInstance, [.param "pInstanceName", .zero]⟩

/-- The parameter that an argument expression forwards, if it forwards one. -/
def ArgExpr.forwards : ArgExpr → Option String
  | .param n => some n
  | .cast _ n => some n
  | .zero => none
  | .LOCALDB_TRUNCATE_ERR_MESSAGE => none

/-- The binding of the declared parameter names to the argument values of an invocation. -/
def ExportCall.env (c : ExportCall) : List (String × Int) :=
  (c.fn.decl.params.map Param.name).zip c.args

/-- The value of an argument expression under a binding of the parameters.  A cast keeps the
address; a name that is not bound has no value. -/
def ArgExpr.eval (hdr : Sqlncli) (env : List (String × Int)) : ArgExpr → Option Int
  | .param n => env.lookup n
  | .cast _ n => env.lookup n
  | .zero => some 0
  | .LOCALDB_TRUNCATE_ERR_MESSAGE => some (hdr.LOCALDB_TRUNCATE_ERR_MESSAGE : Int)

/-- The native call that the body of an export comes to for an invocation; it is what
`invoke_recording` shows the instrumented run to log. -/
def ExportCall.forwarded (hdr : Sqlncli) : ExportCall → NativeCall
  | .CreateInstance a₁ a₂ => .LocalDBCreateInstance a₁ a₂ 0
  | .DeleteInstance a₁ => .LocalDBDeleteInstance a₁ 0
  | .GetInstanceInfo a₁ a₂ a₃ => .LocalDBGetInstanceInfo a₁ a₂ a₃
  | .GetInstanceNames a₁ a₂ => .LocalDBGetInstances a₁ a₂
  | .GetLocalDbError a₁ a₂ a₃ a₄ =>
      .LocalDBFormatMessage a₁ hdr.LOCALDB_TRUNCATE_ERR_MESSAGE a₂ a₃ a₄
  | .GetVersionInfo a₁ a₂ a₃ => .LocalDBGetVersionInfo a₁ a₂ a₃
  | .GetVersions a₁ a₂ => .LocalDBGetVersions a₁ a₂
  | .ShareInstance a₁ a₂ a₃ => .LocalDBShareInstance a₁ a₂ a₃ 0
  | .StartInstance a₁ a₂ a₃ => .LocalDBStartInstance a₁ 0 a₂ a₃
  | .StartTracing => .LocalDBStartTracing
  | .StopInstance a₁ a₂ => .LocalDBStopInstance a₁ 0 a₂
  | .StopTracing => .LocalDBStopTracing
  | .UnshareInstance a₁ => .LocalDBUnshareInstance a₁ 0

/-- Whether an argument expression is a parameter under a cast. -/
def ArgExpr.isCast : ArgExpr → Bool
  | .cast _ _ => true
  | _ => false

/-- The exports whose call expression has an argument that is not taken from the caller. -/
def Export.fixesAnArgument : List Export :=
  Export.all.filter fun e => e.body.args.any fun a => a.forwards.isNone

/-- A build in which `LOCALDB_TRUNCATE_ERR_MESSAGE` is the flag bit `0x0001L` that the SQL Server
Native Client header gives it.  The structure size is not used by `GetLocalDbError`; any
positive value serves. -/
def sqlncli_h : Sqlncli :=
  { LOCALDB_TRUNCATE_ERR_MESSAGE := 0x0001, sizeof_LocalDBInstanceInfo := 1 }

/-! ## Basic facts -/

section Lemmas

variable {σ : Type}

/-- The body of `GetInstanceInfo` comes to the native call on the entry state: neither branch
of the `if` changes the state. -/
theorem GetInstanceInfo_eq (hdr : Sqlncli) (api : LocalDBApi σ) (wszInstanceName : PCWSTR)
    (pInstanceInfo : PVOID) (dwInstanceInfoSize : DWORD) (st : σ) :
    GetInstanceInfo hdr api wszInstanceName pInstanceInfo dwInstanceInfoSize st =
      api.LocalDBGetInstanceInfo wszInstanceName pInstanceInfo dwInstanceInfoSize st := by
  simp only [GetInstanceInfo, ite_self]

/-- Running an invocation on the uninstrumented API is running its forwarded call. -/
theorem invoke_eq_run (hdr : Sqlncli) (api : LocalDBApi σ) (c : ExportCall) (s : σ) :
    c.invoke hdr api s = (c.forwarded hdr).run api s := by
  cases c <;> first | rfl | exact GetInstanceInfo_eq _ _ _ _ _ _

/-- Running a native call on the instrumented API logs that call and nothing else. -/
theorem run_recording (api : LocalDBApi σ) (n : NativeCall) (log : List NativeCall) (s : σ) :
    n.run (recording api) (log, s) = ((n.run api s).1, (log ++ [n], (n.run api s).2)) := by
  cases n <;> rfl

/-- Running an invocation on the instrumented API appends its forwarded call to the log and
otherwise behaves as that call on the underlying API. -/
theorem invoke_recording (hdr : Sqlncli) (api : LocalDBApi σ) (c : ExportCall)
    (log : List NativeCall) (s : σ) :
    c.invoke hdr (recording api) (log, s) =
      (((c.forwarded hdr).run api s).1, (log ++ [c.forwarded hdr], ((c.forwarded hdr).run api s).2)) := by
  rw [invoke_eq_run, run_recording]

/-- One invocation makes exactly its forwarded call. -/
theorem nativeCalls_eq (hdr : Sqlncli) (api : LocalDBApi σ) (c : ExportCall) (s : σ) :
    nativeCalls hdr api c s = [c.forwarded hdr] := by
  simp [nativeCalls, invoke_recording]

end Lemmas

/-! ## The claims -/

section Claims

variable {σ : Type}

/-- C1: for every native API and all arguments, each of the six exports that wrap a native
function with a reserved/flags parameter is the corresponding native call with the caller's
arguments unchanged, in the same relative order, and the literal 0 in the reserved position:
`(version, name, 0)`, `(name, 0)`, `(sid, privateName, sharedName, 0)`, `(name, 0)`,
`(name, 0, buffer, sizePtr)`, `(name, 0, timeout)`; and that is the one native call the
invocation is seen to make. -/
theorem C1_reserved_position_is_zero (hdr : Sqlncli) (api : LocalDBApi σ) :
    (∀ version name : PCWSTR,
        CreateInstance api version name = api.LocalDBCreateInstance version name 0 ∧
        ∀ s, nativeCalls hdr api (.CreateInstance version name) s =
          [.LocalDBCreateInstance version name 0]) ∧
    (∀ name : PCWSTR,
        DeleteInstance api name = api.LocalDBDeleteInstance name 0 ∧
        ∀ s, nativeCalls hdr api (.DeleteInstance name) s = [.LocalDBDeleteInstance name 0]) ∧
    (∀ (sid : PVOID) (privateName sharedName : PCWSTR),
        ShareInstance api sid privateName sharedName =
          api.LocalDBShareInstance sid privateName sharedName 0 ∧
        ∀ s, nativeCalls hdr api (.ShareInstance sid privateName sharedName) s =
          [.LocalDBShareInstance sid privateName sharedName 0]) ∧
    (∀ name : PCWSTR,
        UnshareInstance api name = api.LocalDBUnshareInstance name 0 ∧
        ∀ s, nativeCalls hdr api (.UnshareInstance name) s = [.LocalDBUnshareInstance name 0]) ∧
    (∀ (name : PCWSTR) (buffer : LPWSTR) (sizePtr : LPDWORD),
        StartInstance api name buffer sizePtr = api.LocalDBStartInstance name 0 buffer sizePtr ∧
        ∀ s, nativeCalls hdr api (.StartInstance name buffer sizePtr) s =
          [.LocalDBStartInstance name 0 buffer sizePtr]) ∧
    (∀ (name : PCWSTR) (timeout : ULONG),
        StopInstance api name timeout = api.LocalDBStopInstance name 0 timeout ∧
        ∀ s, nativeCalls hdr api (.StopInstance name timeout) s =
          [.LocalDBStopInstance name 0 timeout]) := by
  refine ⟨?_, ?_, ?_, ?_, ?_, ?_⟩ <;> intros <;>
    exact ⟨rfl, fun s => nativeCalls_eq hdr api _ s⟩

/-- C2: for each of the 13 exports, all arguments and every state, the HRESULT that the export
returns is exactly the HRESULT that the wrapped native call returns on the same state, whatever
that value is. -/
theorem C2_result_code_verbatim (hdr : Sqlncli) (api : LocalDBApi σ) (s : σ) :
    (∀ a₁ a₂, (CreateInstance api a₁ a₂ s).1 = (api.LocalDBCreateInstance a₁ a₂ 0 s).1) ∧
    (∀ a₁, (DeleteInstance api a₁ s).1 = (api.LocalDBDeleteInstance a₁ 0 s).1) ∧
    (∀ a₁ a₂ a₃,
      (GetInstanceInfo hdr api a₁ a₂ a₃ s).1 = (api.LocalDBGetInstanceInfo a₁ a₂ a₃ s).1) ∧
    (∀ a₁ a₂, (GetInstanceNames api a₁ a₂ s).1 = (api.LocalDBGetInstances a₁ a₂ s).1) ∧
    (∀ a₁ a₂ a₃ a₄,
      (GetLocalDbError hdr api a₁ a₂ a₃ a₄ s).1 =
        (api.LocalDBFormatMessage a₁ hdr.LOCALDB_TRUNCATE_ERR_MESSAGE a₂ a₃ a₄ s).1) ∧
    (∀ a₁ a₂ a₃, (GetVersionInfo api a₁ a₂ a₃ s).1 = (api.LocalDBGetVersionInfo a₁ a₂ a₃ s).1) ∧
    (∀ a₁ a₂, (GetVersions api a₁ a₂ s).1 = (api.LocalDBGetVersions a₁ a₂ s).1) ∧
    (∀ a₁ a₂ a₃, (ShareInstance api a₁ a₂ a₃ s).1 = (api.LocalDBShareInstance a₁ a₂ a₃ 0 s).1) ∧
    (∀ a₁ a₂ a₃, (StartInstance api a₁ a₂ a₃ s).1 = (api.LocalDBStartInstance a₁ 0 a₂ a₃ s).1) ∧
    ((StartTracing api s).1 = (api.LocalDBStartTracing s).1) ∧
    (∀ a₁ a₂, (StopInstance api a₁ a₂ s).1 = (api.LocalDBStopInstance a₁ 0 a₂ s).1) ∧
    ((StopTracing api s).1 = (api.LocalDBStopTracing s).1) ∧
    (∀ a₁, (UnshareInstance api a₁ s).1 = (api.LocalDBUnshareInstance a₁ 0 s).1) := by
  refine ⟨?_, ?_, ?_, ?_, ?_, ?_, ?_, ?_, ?_, ?_, ?_, ?_, ?_⟩ <;> intros <;>
    first | rfl | exact congrArg Prod.fst (GetInstanceInfo_eq _ _ _ _ _ _)

/-- C3: for each of the four buffer-filling query exports, every buffer address, every size or
count address and every native behaviour, the native function is called once with the very same
buffer address and the very same size value or count address, and the result code together with
the whole final state (hence the buffer and the count cell) is that of the native function
called directly on the entry state. -/
theorem C3_buffer_queries_pass_through (hdr : Sqlncli) (api : LocalDBApi σ) (s : σ) :
    (∀ (name : PCWSTR) (buffer : PVOID) (size : DWORD),
        GetInstanceInfo hdr api name buffer size s =
          api.LocalDBGetInstanceInfo name buffer size s ∧
        nativeCalls hdr api (.GetInstanceInfo name buffer size) s =
          [.LocalDBGetInstanceInfo name buffer size]) ∧
    (∀ (buffer : PVOID) (count : LPDWORD),
        GetInstanceNames api buffer count s = api.LocalDBGetInstances buffer count s ∧
        nativeCalls hdr api (.GetInstanceNames buffer count) s =
          [.LocalDBGetInstances buffer count]) ∧
    (∀ (name : PCWSTR) (buffer : PVOID) (size : DWORD),
        GetVersionInfo api name buffer size s = api.LocalDBGetVersionInfo name buffer size s ∧
        nativeCalls hdr api (.GetVersionInfo name buffer size) s =
          [.LocalDBGetVersionInfo name buffer size]) ∧
    (∀ (buffer : PVOID) (count : LPDWORD),
        GetVersions api buffer count s = api.LocalDBGetVersions buffer count s ∧
        nativeCalls hdr api (.GetVersions buffer count) s =
          [.LocalDBGetVersions buffer count]) := by
  refine ⟨?_, ?_, ?_, ?_⟩ <;> intros <;>
    exact ⟨by first | rfl | exact GetInstanceInfo_eq _ _ _ _ _ _, nativeCalls_eq hdr api _ s⟩

/-- C4, counterexample: built with the flag value `0x0001`, `GetLocalDbError(0, 0, NULL, NULL)`
calls `LocalDBFormatMessage(0, 1, 0, NULL, NULL)`.  The second argument is written in the body
as the constant `LOCALDB_TRUNCATE_ERR_MESSAGE`; its value 1 is neither the value of a parameter
nor 0.  So it is not true that every native argument is a parameter of the export or zero. -/
theorem C4_counterexample_truncate_flag :
    nativeCalls sqlncli_h idleApi (.GetLocalDbError 0 0 0 0) () =
        [.LocalDBFormatMessage 0 1 0 0 0] ∧
      Export.GetLocalDbError.body.args[1]? = some ArgExpr.LOCALDB_TRUNCATE_ERR_MESSAGE ∧
      ¬ (∀ (hdr : Sqlncli) (c : ExportCall) (n : NativeCall) (a : Int),
          n ∈ nativeCalls hdr idleApi c () → a ∈ n.args → a = 0 ∨ a ∈ c.args) := by
  refine ⟨rfl, rfl, fun h => ?_⟩
  have h1 := h sqlncli_h (.GetLocalDbError 0 0 0 0) (.LocalDBFormatMessage 0 1 0 0 0) 1
    (by simp [nativeCalls_eq, ExportCall.forwarded, sqlncli_h])
    (by simp [NativeCall.args])
  simp [ExportCall.args] at h1

/-- C4, amended: for every export and every invocation, the one native call made has the callee
of the body's call expression, and each of its arguments is the value of the expression written
at that position: a parameter of the export (its value unchanged, a cast keeping the address),
the literal zero, or, only in `GetLocalDbError` (flags position of `LocalDBFormatMessage`), the
constant `LOCALDB_TRUNCATE_ERR_MESSAGE`. -/
theorem C4_arguments_parameter_zero_or_truncate_flag (hdr : Sqlncli) (api : LocalDBApi σ)
    (c : ExportCall) (s : σ) :
    (∃ n : NativeCall, nativeCalls hdr api c s = [n] ∧ n.fn = c.fn.body.callee ∧
        n.args.map some = c.fn.body.args.map (ArgExpr.eval hdr c.env)) ∧
    (∀ a ∈ c.fn.body.args,
        (∃ p ∈ c.fn.decl.params, a = .param p.name ∨ ∃ t, a = .cast t p.name) ∨
        a = .zero ∨
        (c.fn = .GetLocalDbError ∧ a = .LOCALDB_TRUNCATE_ERR_MESSAGE)) := by
  refine ⟨⟨c.forwarded hdr, nativeCalls_eq hdr api c s, ?_, ?_⟩, ?_⟩
  · cases c <;> rfl
  · cases c <;>
      simp [ExportCall.forwarded, NativeCall.args, ExportCall.fn, Export.body, Export.decl,
        ExportCall.env, ExportCall.args, ArgExpr.eval, List.lookup]
  · cases c <;> simp [ExportCall.fn, Export.body, Export.decl]

/-- C5, counterexample: `CreateInstance` is declared with two parameters while its call of
`LocalDBCreateInstance` passes three arguments, and `GetInstanceInfo` declares `pInstanceInfo`
as `void*` while the native call takes it as `PLocalDBInstanceInfo`.  So the parameter lists of
the exports are not those of the native functions. -/
theorem C5_counterexample_CreateInstance_arity :
    Export.CreateInstance.decl.params.length = 2 ∧
      Export.CreateInstance.body.args.length = 3 ∧
      Export.GetInstanceInfo.decl.params[1]? = some ⟨.voidPtr, "pInstanceInfo"⟩ ∧
      Export.GetInstanceInfo.body.args[1]? = some (.cast .PLocalDBInstanceInfo "pInstanceInfo") ∧
      ¬ (∀ e : Export, e.decl.params.length = e.body.args.length) := by
  refine ⟨rfl, rfl, rfl, rfl, fun h => ?_⟩
  exact absurd (h .CreateInstance) (by decide)

/-- C5, amended: for every export, the parameter list is the argument list of its native call
with the arguments fixed by the shim removed: the forwarded arguments are exactly the declared
parameters, each once and in declaration order; the seven exports `CreateInstance`,
`DeleteInstance`, `GetLocalDbError`, `ShareInstance`, `StartInstance`, `StopInstance`,
`UnshareInstance` have one parameter fewer than the native call has arguments and the other
six have the same number; the parameters forwarded under a cast to a native pointer type are
exactly those declared `void*`; and the two copies of `interop.h` declare the same lists. -/
theorem C5_parameters_are_forwarded_arguments (e : Export) :
    e.body.args.filterMap ArgExpr.forwards = e.decl.params.map Param.name ∧
    e.body.args.length = e.decl.params.length + (if e ∈ Export.fixesAnArgument then 1 else 0) ∧
    Export.fixesAnArgument =
      [.CreateInstance, .DeleteInstance, .GetLocalDbError, .ShareInstance, .StartInstance,
       .StopInstance, .UnshareInstance] ∧
    (e.body.args.filter ArgExpr.isCast).filterMap ArgExpr.forwards =
      (e.decl.params.filter fun p => p.type = .voidPtr).map Param.name ∧
    Trunk.interop_h = interop_h := by
  cases e <;> decide

/-- C6: for every error code, language id (0 included), message buffer and size cell,
`GetLocalDbError(hrLocalDB, dwLanguageId, wszMessage, lpcchMessage)` is
`LocalDBFormatMessage(hrLocalDB, LOCALDB_TRUNCATE_ERR_MESSAGE, dwLanguageId, wszMessage,
lpcchMessage)`: same result code and final state, the four caller arguments in positions
1, 3, 4 and 5, and the truncate flag in position 2 whatever the caller passes. -/
theorem C6_GetLocalDbError_is_FormatMessage (hdr : Sqlncli) (api : LocalDBApi σ)
    (hrLocalDB : HRESULT) (dwLanguageId : DWORD) (wszMessage : LPWSTR) (lpcchMessage : LPDWORD) :
    GetLocalDbError hdr api hrLocalDB dwLanguageId wszMessage lpcchMessage =
        api.LocalDBFormatMessage hrLocalDB hdr.LOCALDB_TRUNCATE_ERR_MESSAGE dwLanguageId
          wszMessage lpcchMessage ∧
    ∀ s, nativeCalls hdr api (.GetLocalDbError hrLocalDB dwLanguageId wszMessage lpcchMessage) s =
        [.LocalDBFormatMessage hrLocalDB hdr.LOCALDB_TRUNCATE_ERR_MESSAGE dwLanguageId
          wszMessage lpcchMessage] :=
  ⟨rfl, fun s => nativeCalls_eq hdr api _ s⟩

/-- C7, counterexample: both copies of `interop.h` declare 13 functions, not 11. -/
theorem C7_counterexample_thirteen_exports :
    Trunk.interop_h.length = 13 ∧ interop_h.length = 13 ∧ ¬ (Trunk.interop_h.length = 11) ∧
      ¬ (interop_h.length = 11) := by
  decide

/-- C7, amended: the exported function set consists of exactly 13 functions (the same 13
declarations, with pairwise distinct names, in both copies of `interop.h`), one per native
function called (the 13 callees are pairwise distinct), and each export is a single forwarding
call: every invocation makes exactly one native call, to the callee of its body, and returns
that call's result and final state. -/
theorem C7_thirteen_single_forwarding_exports :
    Trunk.interop_h.length = 13 ∧
    interop_h = Trunk.interop_h ∧
    (Trunk.interop_h.map Decl.name).Nodup ∧
    (Export.all.map fun e => e.body.callee).Nodup ∧
    (∀ e : Export, e ∈ Export.all) ∧
    (∀ {σ : Type} (hdr : Sqlncli) (api : LocalDBApi σ) (c : ExportCall) (s : σ),
      ∃ n : NativeCall, nativeCalls hdr api c s = [n] ∧ n.fn = c.fn.body.callee ∧
        c.invoke hdr api s = n.run api s) := by
  refine ⟨by decide, by decide, by decide, by decide, fun e => by cases e <;> decide, ?_⟩
  intro σ hdr api c s
  exact ⟨c.forwarded hdr, nativeCalls_eq hdr api c s, by cases c <;> rfl, invoke_eq_run hdr api c s⟩

/-- C8: for every export and all arguments, one invocation makes exactly one call into the
native API whatever that call returns: there is a function `f` of the invocation alone such
that, for every native behaviour, every earlier log and every state, the invocation appends the
single entry `f c` to the log of native calls, and its result code and final state are those of
that one call.  Nothing but the machine state handed on by the native call passes from one
invocation to the next. -/
theorem C8_exactly_one_native_call (hdr : Sqlncli) :
    ∃ f : ExportCall → NativeCall,
      ∀ {σ : Type} (api : LocalDBApi σ) (c : ExportCall) (log : List NativeCall) (s : σ),
        c.invoke hdr (recording api) (log, s) =
            (((f c).run api s).1, (log ++ [f c], ((f c).run api s).2)) ∧
          c.invoke hdr api s = (f c).run api s ∧
          nativeCalls hdr api c s = [f c] :=
  ⟨ExportCall.forwarded hdr, fun api c log s =>
    ⟨invoke_recording hdr api c log s, invoke_eq_run hdr api c s, nativeCalls_eq hdr api c s⟩⟩

/-- C9: `GetInstanceInfo` validates nothing: for every value of `sizeof(LocalDBInstanceInfo)`
(so whichever way the `if (s != NULL)` goes), every instance name, every buffer and every
`dwInstanceInfoSize` (0 and any other value), `LocalDBGetInstanceInfo` is called exactly once,
with exactly those three arguments, on the entry state, and its result is returned. -/
theorem C9_GetInstanceInfo_no_validation (hdr : Sqlncli) (api : LocalDBApi σ)
    (wszInstanceName : PCWSTR) (pInstanceInfo : PVOID) (dwInstanceInfoSize : DWORD) (s : σ) :
    GetInstanceInfo hdr api wszInstanceName pInstanceInfo dwInstanceInfoSize s =
        api.LocalDBGetInstanceInfo wszInstanceName pInstanceInfo dwInstanceInfoSize s ∧
    (∀ log : List NativeCall,
        GetInstanceInfo hdr (recording api) wszInstanceName pInstanceInfo dwInstanceInfoSize
            (log, s) =
          ((api.LocalDBGetInstanceInfo wszInstanceName pInstanceInfo dwInstanceInfoSize s).1,
           (log ++ [.LocalDBGetInstanceInfo wszInstanceName pInstanceInfo dwInstanceInfoSize],
            (api.LocalDBGetInstanceInfo wszInstanceName pInstanceInfo dwInstanceInfoSize s).2))) ∧
    (∀ hdr₂ : Sqlncli,
        GetInstanceInfo hdr₂ api wszInstanceName pInstanceInfo dwInstanceInfoSize s =
          GetInstanceInfo hdr api wszInstanceName pInstanceInfo dwInstanceInfoSize s) := by
  refine ⟨GetInstanceInfo_eq _ _ _ _ _ _, fun log => ?_, fun hdr₂ => ?_⟩
  · rw [GetInstanceInfo_eq]; rfl
  · rw [GetInstanceInfo_eq, GetInstanceInfo_eq]

/-- C10: the map from exports to the native entry points they call is injective: every
invocation of an export calls the callee named in its body and no other, the 13 callees are, in
the order of `interop.h`, `LocalDBCreateInstance`, `LocalDBDeleteInstance`,
`LocalDBGetInstanceInfo`, `LocalDBGetInstances`, `LocalDBFormatMessage`, `LocalDBGetVersionInfo`,
`LocalDBGetVersions`, `LocalDBShareInstance`, `LocalDBStartInstance`, `LocalDBStartTracing`,
`LocalDBStopInstance`, `LocalDBStopTracing`, `LocalDBUnshareInstance`, and no two exports share
one. -/
theorem C10_export_to_native_injective :
    (∀ {σ : Type} (hdr : Sqlncli) (api : LocalDBApi σ) (c : ExportCall) (s : σ),
      (nativeCalls hdr api c s).map NativeCall.fn = [c.fn.body.callee]) ∧
    (Export.all.map fun e => (e, e.body.callee)) =
      [(.CreateInstance, .LocalDBCreateInstance), (.DeleteInstance, .LocalDBDeleteInstance),
       (.GetInstanceInfo, .LocalDBGetInstanceInfo), (.GetInstanceNames, .LocalDBGetInstances),
       (.GetLocalDbError, .LocalDBFormatMessage), (.GetVersionInfo, .LocalDBGetVersionInfo),
       (.GetVersions, .LocalDBGetVersions), (.ShareInstance, .LocalDBShareInstance),
       (.StartInstance, .LocalDBStartInstance), (.StartTracing, .LocalDBStartTracing),
       (.StopInstance, .LocalDBStopInstance), (.StopTracing, .LocalDBStopTracing),
       (.UnshareInstance, .LocalDBUnshareInstance)] ∧
    Function.Injective (fun e : Export => e.body.callee) ∧
    (∀ {σ : Type} (hdr : Sqlncli) (api : LocalDBApi σ) (c₁ c₂ : ExportCall) (s₁ s₂ : σ),
      (nativeCalls hdr api c₁ s₁).map NativeCall.fn =
        (nativeCalls hdr api c₂ s₂).map NativeCall.fn → c₁.fn = c₂.fn) := by
  have hfn : ∀ {σ : Type} (hdr : Sqlncli) (api : LocalDBApi σ) (c : ExportCall) (s : σ),
      (nativeCalls hdr api c s).map NativeCall.fn = [c.fn.body.callee] := by
    intro σ hdr api c s
    rw [nativeCalls_eq]
    cases c <;> rfl
  have hinj : Function.Injective (fun e : Export => e.body.callee) := by
    intro e₁ e₂ h
    cases e₁ <;> cases e₂ <;> first | rfl | exact absurd h (by decide)
  refine ⟨hfn, by decide, hinj, ?_⟩
  intro σ hdr api c₁ c₂ s₁ s₂ h
  rw [hfn, hfn] at h
  exact hinj (List.cons.inj h).1

/-- C10, instance: two invocations of `StartInstance` with different arguments log the same
entry point, and the theorem returns the same export for them; `StartTracing` and `StopTracing`
log different entry points. -/
theorem C10_export_to_native_injective_witness :
    ((nativeCalls sqlncli_h idleApi (.StartInstance 1 2 3) ()).map NativeCall.fn =
        (nativeCalls sqlncli_h idleApi (.StartInstance 4 5 6) ()).map NativeCall.fn) ∧
      (ExportCall.StartInstance 1 2 3).fn = (ExportCall.StartInstance 4 5 6).fn ∧
      (nativeCalls sqlncli_h idleApi .StartTracing ()).map NativeCall.fn ≠
        (nativeCalls sqlncli_h idleApi .StopTracing ()).map NativeCall.fn :=
  ⟨by decide,
   C10_export_to_native_injective.2.2.2 sqlncli_h idleApi (.StartInstance 1 2 3)
     (.StartInstance 4 5 6) () () (by decide),
   by decide⟩

end Claims

end SqlLocalDb
